import Mathlib

/-!
Shallow embedding of `server.js` (puppeteer autolink proxy service) and
proofs about its components: the browser session manager (`ensureBrowser`),
the authentication prober (`isGoogleLoggedIn`), the login driver
(`attemptGoogleLogin`), the upstream caller (`callAutolinkFromPage`), the
payload scan (`findUrl`), and the HTTP handlers for POST /autolink and
POST /login.

JavaScript values occurring in request bodies and upstream responses are
modelled by the inductive type `JSVal`; JS truthiness by `jsTruthy`.
Effectful browser-automation steps (navigation, element waits, evaluate)
are modelled by `Except String` outcomes supplied by an environment
record: `.error m` models the step throwing an exception with message `m`.
-/

/-- Model of a JavaScript/JSON value as it occurs in request bodies and
upstream response payloads. `undef` models the JS value `undefined`
(an absent object field destructures to it). Numbers are modelled as
integers; object key order is the (insertion) order `Object.keys` yields. -/
inductive JSVal where
  | null
  | undef
  | bool (b : Bool)
  | num (n : Int)
  | str (s : String)
  | arr (vs : List JSVal)
  | obj (kvs : List (String × JSVal))

/-- JS truthiness of a `JSVal`: `null`, `undefined`, `false`, `0` and the
empty string are falsy; every array and object (even empty) is truthy. -/
def jsTruthy : JSVal → Bool
  | .null => false
  | .undef => false
  | .bool b => b
  | .num n => n != 0
  | .str s => !s.isEmpty
  | .arr _ => true
  | .obj _ => true

/-- Character-list prefix test used throughout: `charsPre pat s` is true
when `pat` is a prefix of `s`. -/
def charsPre : List Char → List Char → Bool
  | [], _ => true
  | _ :: _, [] => false
  | a :: as, b :: bs => a == b && charsPre as bs

/-- JS `String.prototype.startsWith`, modelled over character lists so that
it evaluates by kernel reduction. -/
def strStartsWith (s pat : String) : Bool :=
  charsPre pat.toList s.toList

/-- Embedding of `findUrl` (server.js lines 235-245): depth-first scan of a
payload for the first string starting with `"http"`. The source first
returns `null` on any falsy value (`null`, `""`, `0`, `false`, `undefined`),
returns the string itself when it is a string starting with `"http"`,
iterates arrays element by element and objects key by key returning the
first non-null recursive result, and returns `null` otherwise; the
head-first recursion below is that loop. (A falsy string is `""`, which
does not start with `"http"`, so the falsy check and the `startsWith` test
coincide on strings.) -/
def findUrl : JSVal → Option String
  | .str s => if strStartsWith s "http" then some s else none
  | .arr [] => none
  | .arr (v :: rest) =>
    match findUrl v with
    | some f => some f
    | none => findUrl (.arr rest)
  | .obj [] => none
  | .obj ((_, v) :: rest) =>
    match findUrl v with
    | some f => some f
    | none => findUrl (.obj rest)
  | _ => none

/-- The string leaves of a payload in depth-first order (arrays element by
element, objects key by key), used to characterise `findUrl`. -/
def dfsStrings : JSVal → List String
  | .str s => [s]
  | .arr [] => []
  | .arr (v :: rest) => dfsStrings v ++ dfsStrings (.arr rest)
  | .obj [] => []
  | .obj ((_, v) :: rest) => dfsStrings v ++ dfsStrings (.obj rest)
  | _ => []

/-- C9: the payload scan is deterministic — `findUrl` is a pure function of
the payload, and it returns exactly the first string leaf, in depth-first
order over arrays and objects, that starts with `"http"` (`List.find?` of
the depth-first string-leaf list), or `none` when no such string exists. -/
theorem findUrl_eq_first_http (v : JSVal) :
    findUrl v = (dfsStrings v).find? (fun s => strStartsWith s "http") := by
  induction v using findUrl.induct
  all_goals simp_all [findUrl, dfsStrings, List.find?_append, Option.or]
  all_goals rename_i w rest hall ih2 ih1
  all_goals cases hf : List.find? (fun s => strStartsWith s "http") (dfsStrings w) <;> simp_all

/-- Substring containment on character lists: `pat` occurs somewhere in `s`. -/
def charsSub (pat s : List Char) : Bool :=
  match s with
  | [] => charsPre pat []
  | _ :: rest => charsPre pat s || charsSub pat rest

/-- String substring containment, modelling JS `String.prototype.includes`. -/
def strHasSub (pat s : String) : Bool :=
  charsSub pat.toList s.toList

/-- Outcome of the navigation performed by the authentication prober: either
an exception with a message, or the final URL (`page.url()`) after the
redirect settles. -/
def NavOutcome := Except String String

/-- Embedding of `isGoogleLoggedIn` (server.js lines 69-82): navigate to the
account-status URL and inspect the final URL. Returns `false` when the
final URL contains `"accounts.google.com"` or `"signin"`, `true` for any
other final URL, and `false` when the navigation itself throws. -/
def isGoogleLoggedIn (nav : NavOutcome) : Bool :=
  match nav with
  | .error _ => false
  | .ok url =>
    if strHasSub "accounts.google.com" url || strHasSub "signin" url then false
    else true

/-- C6: the authentication prober returns `false` whenever the final URL
contains the sign-in domain `accounts.google.com` or the path segment
`signin`, returns `true` for any other final URL, and returns `false` on
any navigation error. -/
theorem isGoogleLoggedIn_spec :
    (∀ e : String, isGoogleLoggedIn (.error e) = false) ∧
    (∀ url : String, (strHasSub "accounts.google.com" url || strHasSub "signin" url) = true →
      isGoogleLoggedIn (.ok url) = false) ∧
    (∀ url : String, (strHasSub "accounts.google.com" url || strHasSub "signin" url) = false →
      isGoogleLoggedIn (.ok url) = true) := by
  refine ⟨fun e => rfl, fun url h => ?_, fun url h => ?_⟩ <;> simp [isGoogleLoggedIn, h]

/-- Witness for C6 at concrete final URLs: a sign-in redirect URL is
classified as not logged in, a plain account URL as logged in, and a
navigation timeout as not logged in. -/
theorem isGoogleLoggedIn_spec_witness :
    isGoogleLoggedIn (.ok "https://accounts.google.com/v3/signin/identifier") = false ∧
    isGoogleLoggedIn (.ok "https://myaccount.google.com/") = true ∧
    isGoogleLoggedIn (.error "Navigation timeout of 30000 ms exceeded") = false :=
  ⟨isGoogleLoggedIn_spec.2.1 _ (by decide),
   isGoogleLoggedIn_spec.2.2 _ (by decide),
   isGoogleLoggedIn_spec.1 _⟩

/-- Result object produced by the in-page fetch in `callAutolinkFromPage`
(server.js lines 139-157): either `{status, body}` on a completed response,
or `{status: 0, error}` when the fetch threw inside the page context. -/
inductive ALResult where
  | ok (status : Nat) (body : JSVal)
  | netErr (error : String)

/-- The `status` field of an `ALResult` object: `0` on the error object. -/
def ALResult.status : ALResult → Nat
  | .ok s _ => s
  | .netErr _ => 0

/-- The `body` field of an `ALResult` object: absent (`undefined`) on the
error object. -/
def ALResult.bodyJS : ALResult → Option JSVal
  | .ok _ b => some b
  | .netErr _ => none

/-- Outcome of the in-page `fetch` of the autolink API: either an exception
message (network-level failure), or the completed response's HTTP status
and raw body text. -/
structure PageFetchResp where
  status : Nat
  text : String

/-- Embedding of the function evaluated in the page by
`callAutolinkFromPage` (server.js lines 140-155). `parse` models
`JSON.parse` (`none` = parse failure throwing); `f` models the in-page
`fetch` (`.error` = the fetch rejecting). On a completed response the body
text is parsed as JSON, falling back to the raw text on parse failure; on a
rejected fetch the result is `{status: 0, error: <message>}`. -/
def callAutolinkFromPage (parse : String → Option JSVal) (f : Except String PageFetchResp) :
    ALResult :=
  match f with
  | .error err => .netErr err
  | .ok r =>
    match parse r.text with
    | some j => .ok r.status j
    | none => .ok r.status (.str r.text)

/-- C5: a network-level failure inside the page context yields
`{status: 0, error: <message>}` (status 0 is the sentinel), and a completed
response whose body is not valid JSON is returned with the raw text as
`body` together with the real HTTP status — never discarded. A body that
does parse keeps the parsed value and the real status. -/
theorem callAutolinkFromPage_spec :
    (∀ (parse : String → Option JSVal) (e : String),
      callAutolinkFromPage parse (.error e) = .netErr e ∧
      (callAutolinkFromPage parse (.error e)).status = 0) ∧
    (∀ (parse : String → Option JSVal) (s : Nat) (t : String), parse t = none →
      callAutolinkFromPage parse (.ok ⟨s, t⟩) = .ok s (.str t)) ∧
    (∀ (parse : String → Option JSVal) (s : Nat) (t : String) (j : JSVal), parse t = some j →
      callAutolinkFromPage parse (.ok ⟨s, t⟩) = .ok s j) := by
  refine ⟨fun parse e => ⟨rfl, rfl⟩, fun parse s t h => ?_, fun parse s t j h => ?_⟩ <;>
    simp [callAutolinkFromPage, h]

/-- Witness for C5: with a parse function that rejects plain HTML, a 200
response with an HTML body is preserved as raw text; a rejected fetch maps
to the status-0 error object. -/
theorem callAutolinkFromPage_spec_witness :
    callAutolinkFromPage (fun _ => none) (.ok ⟨200, "<html>romance-dawn</html>"⟩) =
      .ok 200 (.str "<html>romance-dawn</html>") ∧
    callAutolinkFromPage (fun _ => none) (.error "Failed to fetch") = .netErr "Failed to fetch" ∧
    callAutolinkFromPage (fun _ => some .null) (.ok ⟨200, "null"⟩) = .ok 200 .null :=
  ⟨callAutolinkFromPage_spec.2.1 _ 200 _ rfl,
   (callAutolinkFromPage_spec.1 _ _).1,
   callAutolinkFromPage_spec.2.2 _ 200 _ _ rfl⟩

/-- Return object of `attemptGoogleLogin`: `{ ok: boolean, reason?: string }`. -/
structure LoginOutcome where
  ok : Bool
  reason : Option String
deriving DecidableEq, Repr

/-- Case-insensitive marker scan of the visible page text (server.js line
129): the regex `/verify|verification|2-step|2 step|challenge|captcha/i`
modelled by lowercasing the text and testing each alternative as a
substring. -/
def hasVerifyMarker (t : String) : Bool :=
  let l := t.toLower
  strHasSub "verify" l || strHasSub "verification" l || strHasSub "2-step" l ||
    strHasSub "2 step" l || strHasSub "challenge" l || strHasSub "captcha" l

/-- Outcomes of the effectful browser-automation steps of the login flow
(server.js lines 92-131), in source order. `.error m` models the step
throwing with message `m`. `probeNav` is the navigation outcome consumed by
the `isGoogleLoggedIn` re-probe after the form flow; `bodyText` is the
`page.evaluate` reading `document.body.innerText`. The
`waitForNavigation` at line 122 has its rejection swallowed by `.catch`, so
it cannot affect control flow and has no field. -/
structure LoginFlowEnv where
  setUserAgent : Except String Unit
  gotoLogin : Except String Unit
  waitEmailSel : Except String Unit
  typeEmail : Except String Unit
  clickIdNext : Except String Unit
  pressEnter1 : Except String Unit
  waitPassSel : Except String Unit
  typePass : Except String Unit
  clickPassNext : Except String Unit
  pressEnter2 : Except String Unit
  probeNav : NavOutcome
  bodyText : Except String String

/-- The body of the `try` block of `attemptGoogleLogin` (server.js lines
92-132): the multi-step form flow. A failing primary click falls back to a
keyboard Enter (whose own failure escapes to the outer catch); after the
flow the login state is re-probed, and on failure the page text is scanned
for extra-verification markers. -/
def loginFlow (env : LoginFlowEnv) : Except String LoginOutcome := do
  env.setUserAgent
  env.gotoLogin
  env.waitEmailSel
  env.typeEmail
  (match env.clickIdNext with | .ok _ => Except.ok () | .error _ => env.pressEnter1)
  env.waitPassSel
  env.typePass
  (match env.clickPassNext with | .ok _ => Except.ok () | .error _ => env.pressEnter2)
  if isGoogleLoggedIn env.probeNav then
    return ⟨true, none⟩
  else do
    let t ← env.bodyText
    if hasVerifyMarker t then
      return ⟨false, some "Google requested 2FA/CAPTCHA or extra verification"⟩
    else
      return ⟨false, some "Unknown — login not confirmed"⟩

/-- Embedding of `attemptGoogleLogin` (server.js lines 87-136): fail fast
when either credential string is falsy (empty); otherwise run the flow,
converting any exception into `{ok: false, reason: "Exception during
login: <message>"}`. -/
def attemptGoogleLogin (email pass : String) (env : LoginFlowEnv) : LoginOutcome :=
  if email.isEmpty || pass.isEmpty then
    ⟨false, some "Missing GOOGLE_EMAIL or GOOGLE_PASS"⟩
  else
    match loginFlow env with
    | .ok o => o
    | .error m => ⟨false, some ("Exception during login: " ++ m)⟩

/-- JS `process.env.X || dflt`: an unset variable (`none`) and the empty
string are falsy, so both fall back to the default. -/
def envOr (v : Option String) (dflt : String) : String :=
  match v with
  | none => dflt
  | some s => if s.isEmpty then dflt else s

/-- Embedding of the `GOOGLE_EMAIL` configuration (server.js line 31): the
environment value with a hardcoded fallback literal. (The source line is
missing the closing quote of the literal — a syntax slip; the intended
literal is used here.) -/
def GOOGLE_EMAIL (env : Option String) : String :=
  envOr env "nakano.miku.5@gmail.com"

/-- Embedding of the `GOOGLE_PASS` configuration (server.js line 32). -/
def GOOGLE_PASS (env : Option String) : String :=
  envOr env "mikuchan2025@"

/-- The auto-login gate in POST /autolink (server.js line 199):
`!gLogged && GOOGLE_EMAIL && GOOGLE_PASS` — login is attempted exactly when
this is true. -/
def loginGate (gLogged : Bool) (email pass : String) : Bool :=
  !gLogged && (!email.isEmpty && !pass.isEmpty)

theorem loginFlow_ok_shape (env : LoginFlowEnv) (o : LoginOutcome)
    (h : loginFlow env = .ok o) : o = ⟨true, none⟩ ∨ ∃ r, o = ⟨false, some r⟩ := by
  obtain ⟨ook, oreason⟩ := o
  simp only [loginFlow, Bind.bind, Except.bind, pure, Except.pure] at h
  repeat' split at h
  all_goals simp_all
  all_goals exact ⟨_, h.2.symm⟩

/-- C8: `attemptGoogleLogin` never propagates an exception: every execution
returns a `LoginOutcome`, with `ok = true` or a populated `reason`, and
whenever the inner flow throws with message `m` the result is
`{ok: false, reason: "Exception during login: " + m}`. -/
theorem attemptGoogleLogin_no_throw :
    (∀ (email pass : String) (env : LoginFlowEnv),
      (attemptGoogleLogin email pass env).ok = true ∨
      ((attemptGoogleLogin email pass env).reason).isSome = true) ∧
    (∀ (email pass : String) (env : LoginFlowEnv) (m : String),
      (email.isEmpty || pass.isEmpty) = false → loginFlow env = .error m →
      attemptGoogleLogin email pass env = ⟨false, some ("Exception during login: " ++ m)⟩) := by
  constructor
  · intro email pass env
    unfold attemptGoogleLogin
    split
    · simp
    · cases hl : loginFlow env with
      | error m => simp
      | ok o => rcases loginFlow_ok_shape env o hl with rfl | ⟨r, rfl⟩ <;> simp
  · intro email pass env m hcred hflow
    simp [attemptGoogleLogin, hcred, hflow]

/-- Login-flow environment in which the navigation to the login page throws
and every other step succeeds. -/
def failGotoEnv : LoginFlowEnv :=
  ⟨.ok (), .error "net::ERR_NAME_NOT_RESOLVED", .ok (), .ok (), .ok (), .ok (),
   .ok (), .ok (), .ok (), .ok (), .error "probe skipped", .ok ""⟩

/-- Witness for C8: with nonempty credentials and a login navigation that
throws, the outcome is the converted exception, not a propagated error. -/
theorem attemptGoogleLogin_no_throw_witness :
    ("user@example.com".isEmpty || "hunter2".isEmpty) = false ∧
    loginFlow failGotoEnv = .error "net::ERR_NAME_NOT_RESOLVED" ∧
    attemptGoogleLogin "user@example.com" "hunter2" failGotoEnv =
      ⟨false, some ("Exception during login: " ++ "net::ERR_NAME_NOT_RESOLVED")⟩ :=
  ⟨rfl, rfl, attemptGoogleLogin_no_throw.2 _ _ _ _ rfl rfl⟩

/-- Login-flow environment in which every step succeeds and the post-flow
probe lands on a non-sign-in URL (login succeeded). -/
def loggedInEnv : LoginFlowEnv :=
  ⟨.ok (), .ok (), .ok (), .ok (), .ok (), .ok (),
   .ok (), .ok (), .ok (), .ok (), .ok "https://myaccount.google.com/", .ok ""⟩

/-- Counterexample to C7: with both credential environment variables absent,
the hardcoded fallbacks (server.js lines 31-32) make the credential strings
nonempty, so `attemptGoogleLogin` does not fail fast with the
missing-credentials outcome — it drives the login flow (here to success) —
and the POST /autolink auto-login gate still fires. -/
theorem missing_creds_counterexample :
    GOOGLE_EMAIL none = "nakano.miku.5@gmail.com" ∧
    GOOGLE_PASS none = "mikuchan2025@" ∧
    attemptGoogleLogin (GOOGLE_EMAIL none) (GOOGLE_PASS none) loggedInEnv = ⟨true, none⟩ ∧
    loginGate false (GOOGLE_EMAIL none) (GOOGLE_PASS none) = true := by
  refine ⟨rfl, rfl, ?_, rfl⟩
  decide

theorem envOr_nonempty (v : Option String) (d : String) (hd : d.isEmpty = false) :
    (envOr v d).isEmpty = false := by
  cases v with
  | none => exact hd
  | some s =>
    dsimp [envOr]
    split
    · exact hd
    · simp_all

/-- C7 amended: the missing-credentials fast path exists
(`attemptGoogleLogin` with an empty credential string returns
`{ok: false, reason: "Missing GOOGLE_EMAIL or GOOGLE_PASS"}`), but the
hardcoded fallback credentials make the defaulted `GOOGLE_EMAIL` and
`GOOGLE_PASS` nonempty for every environment configuration, so absent
configuration never skips login: `attemptGoogleLogin` always proceeds past
the credential check, and the /autolink auto-login gate reduces to "not
already logged in". -/
theorem attemptGoogleLogin_defaulted_creds :
    (∀ envE : Option String, (GOOGLE_EMAIL envE).isEmpty = false) ∧
    (∀ envP : Option String, (GOOGLE_PASS envP).isEmpty = false) ∧
    (∀ (envE envP : Option String) (env : LoginFlowEnv),
      attemptGoogleLogin (GOOGLE_EMAIL envE) (GOOGLE_PASS envP) env =
        match loginFlow env with
        | .ok o => o
        | .error m => ⟨false, some ("Exception during login: " ++ m)⟩) ∧
    (∀ (pass : String) (env : LoginFlowEnv),
      attemptGoogleLogin "" pass env = ⟨false, some "Missing GOOGLE_EMAIL or GOOGLE_PASS"⟩) ∧
    (∀ (gLogged : Bool) (envE envP : Option String),
      loginGate gLogged (GOOGLE_EMAIL envE) (GOOGLE_PASS envP) = !gLogged) := by
  have he : ∀ envE : Option String, (GOOGLE_EMAIL envE).isEmpty = false :=
    fun envE => envOr_nonempty envE _ rfl
  have hp : ∀ envP : Option String, (GOOGLE_PASS envP).isEmpty = false :=
    fun envP => envOr_nonempty envP _ rfl
  refine ⟨he, hp, fun envE envP env => ?_, fun pass env => rfl, fun g envE envP => ?_⟩
  · simp [attemptGoogleLogin, he envE, hp envP]
  · simp [loginGate, he envE, hp envP]

/-- HTTP response sent by a handler: a JSON response with a status code, or
a streamed file relaying the upstream content-type and (optional)
content-disposition headers. -/
inductive Resp where
  | json (status : Nat) (body : JSVal)
  | stream (contentType : String) (contentDisposition : Option String)

/-- Response of the second (`node-fetch`) request for the located file URL:
`ok` is `resp.ok`, with the relayed headers. -/
structure FetchResp where
  ok : Bool
  status : Nat
  contentType : Option String
  contentDisposition : Option String

/-- JSON serialisation of the in-page call's result object, as it appears
in the `details` field of the 502 response body (`undefined` when the
evaluate returned no result). -/
def resultToJS : Option ALResult → JSVal
  | none => .undef
  | some (.ok s b) => .obj [("status", .num s), ("body", b)]
  | some (.netErr e) => .obj [("status", .num 0), ("error", .str e)]

/-- Embedding of the response logic of POST /autolink after the in-page
call returns (server.js lines 224-260): the status-0/absent-result 502, the
non-200 relay, and — on 200 — either the plain `{ok, payload}` JSON or, when
`download` is truthy, the `findUrl` scan followed by the file fetch and
stream. The result is `Except`: `.error` models an exception (here: the
file fetch rejecting) escaping to the handler's catch block. -/
def materialize (download : JSVal) (result : Option ALResult)
    (ff : String → Except String FetchResp) : Except String Resp :=
  match result with
  | none =>
    .ok (.json 502 (.obj [("error", .str "Request inside browser failed"), ("details", .undef)]))
  | some r =>
    if r.status = 0 then
      .ok (.json 502 (.obj [("error", .str "Request inside browser failed"),
                            ("details", resultToJS (some r))]))
    else if r.status ≠ 200 then
      .ok (.json r.status (.obj [("error", .str "Upstream non-200"),
                                 ("data", (r.bodyJS).getD .undef)]))
    else if jsTruthy download then
      match findUrl ((r.bodyJS).getD .undef) with
      | none =>
        .ok (.json 200 (.obj [("message", .str "No direct file URL found"),
                              ("payload", (r.bodyJS).getD .undef)]))
      | some fileUrl =>
        match ff fileUrl with
        | .error e => .error e
        | .ok u =>
          if u.ok then
            .ok (.stream (u.contentType.getD "application/octet-stream") u.contentDisposition)
          else
            .ok (.json 502 (.obj [("error", .str "Failed fetch file"), ("status", .num u.status)]))
    else
      .ok (.json 200 (.obj [("ok", .bool true), ("payload", (r.bodyJS).getD .undef)]))

/-- Outcomes of the effectful steps of the POST /autolink handler (server.js
lines 184-267), in source order. The login-check region (lines 195-211) and
the navigation to the site (lines 213-218) are wrapped in their own
`try`/`catch` blocks whose catches only log, so their outcomes cannot alter
the response or escape; they carry no control-flow fields beyond `gLogged`
and the login attempt, which the handler ignores. `callResult` is the
`page.evaluate` of the in-page call: it can itself throw (`.error`), and
`.ok none` models it resolving to a falsy non-object. `ff` is the
`node-fetch` of the located file URL. -/
structure ALEnv where
  ensure : Except String Unit
  newPage : Except String Unit
  setViewport : Except String Unit
  gLogged : Bool
  loginAttempt : LoginOutcome
  gotoSite : Except String Unit
  callResult : Except String (Option ALResult)
  ff : String → Except String FetchResp

/-- Whether the page/tab opened by a request was created and whether it was
closed by the time the response was sent. -/
structure PageTrace where
  created : Bool
  closed : Bool
deriving DecidableEq, Repr

/-- Validation of the `url` body field (server.js line 186): must be a
nonempty (truthy) string. -/
def validUrl : JSVal → Option String
  | .str s => if s.isEmpty then none else some s
  | _ => none

/-- Embedding of the POST /autolink handler (server.js lines 184-267),
returning the response together with the page lifecycle trace. The page is
closed at line 222, after the in-page call returns and before the result is
inspected; the top-level catch (line 261-263) returns a 500 with the
exception message and does not close the page. -/
def autolinkHandler (urlField download : JSVal) (env : ALEnv) : Resp × PageTrace :=
  match validUrl urlField with
  | none => (.json 400 (.obj [("error", .str "Missing \x22url\x22 in body")]), ⟨false, false⟩)
  | some _ =>
    match env.ensure with
    | .error e => (.json 500 (.obj [("ok", .bool false), ("error", .str e)]), ⟨false, false⟩)
    | .ok _ =>
      match env.newPage with
      | .error e => (.json 500 (.obj [("ok", .bool false), ("error", .str e)]), ⟨false, false⟩)
      | .ok _ =>
        match env.setViewport with
        | .error e => (.json 500 (.obj [("ok", .bool false), ("error", .str e)]), ⟨true, false⟩)
        | .ok _ =>
          match env.callResult with
          | .error e => (.json 500 (.obj [("ok", .bool false), ("error", .str e)]), ⟨true, false⟩)
          | .ok result =>
            match materialize download result env.ff with
            | .error e => (.json 500 (.obj [("ok", .bool false), ("error", .str e)]), ⟨true, true⟩)
            | .ok resp => (resp, ⟨true, true⟩)

/-- Outcomes of the effectful steps of the POST /login handler (server.js
lines 160-181). The `setCookie` call is wrapped in its own `try`/`catch`
(line 167) so it cannot escape; `isGoogleLoggedIn` and `attemptGoogleLogin`
catch internally and never throw, so after page creation no step of this
handler throws. -/
structure LoginEnv where
  ensure : Except String Unit
  newPage : Except String Unit
  already : Bool
  attempt : LoginOutcome

/-- JSON serialisation of a `LoginOutcome` (the `reason` field is omitted
when absent). -/
def outcomeToJS (o : LoginOutcome) : JSVal :=
  match o.reason with
  | none => .obj [("ok", .bool o.ok)]
  | some r => .obj [("ok", .bool o.ok), ("reason", .str r)]

/-- Embedding of the POST /login handler (server.js lines 160-181): both the
already-logged-in branch and the attempt branch close the page before
responding. -/
def loginHandler (env : LoginEnv) : Resp × PageTrace :=
  match env.ensure with
  | .error e => (.json 500 (.obj [("ok", .bool false), ("error", .str e)]), ⟨false, false⟩)
  | .ok _ =>
    match env.newPage with
    | .error e => (.json 500 (.obj [("ok", .bool false), ("error", .str e)]), ⟨false, false⟩)
    | .ok _ =>
      if env.already then
        (.json 200 (.obj [("ok", .bool true),
                          ("message", .str "Already logged in (detected)")]), ⟨true, true⟩)
      else
        (.json 200 (outcomeToJS env.attempt), ⟨true, true⟩)

/-- Environment for POST /autolink in which everything up to the in-page
call succeeds and the `page.evaluate` of the call itself throws. -/
def evalThrowEnv : ALEnv :=
  ⟨.ok (), .ok (), .ok (), true, ⟨true, none⟩, .ok (),
   .error "Execution context was destroyed, most likely because of a navigation.",
   fun _ => .error "unused"⟩

/-- Counterexample to C3: when the in-page call (`page.evaluate`) throws, the
POST /autolink handler answers 500 from its catch block without closing the
page it created — the page is not closed on this exit path. -/
theorem autolink_page_leak_counterexample :
    (autolinkHandler (.str "https://example.com/x") .null evalThrowEnv).2.created = true ∧
    (autolinkHandler (.str "https://example.com/x") .null evalThrowEnv).2.closed = false ∧
    (autolinkHandler (.str "https://example.com/x") .null evalThrowEnv).1 =
      .json 500 (.obj [("ok", .bool false),
        ("error", .str "Execution context was destroyed, most likely because of a navigation.")]) :=
  ⟨rfl, rfl, rfl⟩

/-- C3 amended: the page opened by POST /autolink is closed before the
response on every exit path on which the in-page call returns (success,
upstream error, download branch, and even a later file-fetch exception),
and POST /login closes its page on every modelled exit path; but an
exception thrown between page creation and the close call (the viewport
setup or the in-page evaluate) reaches the top-level catch with the page
left open. -/
theorem page_closed_when_call_returns :
    (∀ (u d : JSVal) (env : ALEnv),
      env.setViewport = .ok () → (∃ r, env.callResult = .ok r) →
      (autolinkHandler u d env).2.closed = (autolinkHandler u d env).2.created) ∧
    (∀ env : LoginEnv, (loginHandler env).2.closed = (loginHandler env).2.created) := by
  constructor
  · intro u d env hv hr
    obtain ⟨r, hc⟩ := hr
    cases h1 : validUrl u with
    | none => simp [autolinkHandler, h1]
    | some s =>
      cases h2 : env.ensure with
      | error e => simp [autolinkHandler, h1, h2]
      | ok w =>
        cases h3 : env.newPage with
        | error e => simp [autolinkHandler, h1, h2, h3]
        | ok w2 =>
          cases h4 : materialize d r env.ff with
          | error e => simp [autolinkHandler, h1, h2, h3, hv, hc, h4]
          | ok resp => simp [autolinkHandler, h1, h2, h3, hv, hc, h4]
  · intro env
    simp only [loginHandler]
    repeat' split
    all_goals rfl

/-- Environment for POST /autolink in which every step succeeds and the
upstream call returns a 200 payload containing a file link. -/
def okCallEnv : ALEnv :=
  ⟨.ok (), .ok (), .ok (), true, ⟨true, none⟩, .ok (),
   .ok (some (.ok 200 (.obj [("link", .str "https://files.example/x.mp4")]))),
   fun _ => .ok ⟨true, 200, some "video/mp4", none⟩⟩

/-- Environment for POST /login with browser available and a not-logged-in
session. -/
def loginOkEnv : LoginEnv :=
  ⟨.ok (), .ok (), false, ⟨false, some "Unknown — login not confirmed"⟩⟩

/-- Witness for the amended C3 at concrete environments: on a successful
in-page call the autolink page trace is created-and-closed, and the login
handler's trace likewise. -/
theorem page_closed_when_call_returns_witness :
    (autolinkHandler (.str "https://example.com/x") .null okCallEnv).2.closed =
      (autolinkHandler (.str "https://example.com/x") .null okCallEnv).2.created ∧
    (loginHandler loginOkEnv).2.closed = (loginHandler loginOkEnv).2.created :=
  ⟨page_closed_when_call_returns.1 _ _ _ rfl ⟨_, rfl⟩,
   page_closed_when_call_returns.2 loginOkEnv⟩

/-- C4: after the in-page call of POST /autolink, an absent result or a
status-0 result yields a 502 whose body references the failure details;
a result with any other non-200 status is relayed with that same status
and the upstream body as the `data` error context — in particular an
upstream 403 with body `{error: "forbidden"}` yields a 403 with
`{error: "Upstream non-200", data: {error: "forbidden"}}`. -/
theorem materialize_upstream_spec :
    (∀ (d : JSVal) (ff : String → Except String FetchResp),
      materialize d none ff =
        .ok (.json 502 (.obj [("error", .str "Request inside browser failed"),
                              ("details", .undef)]))) ∧
    (∀ (d : JSVal) (ff : String → Except String FetchResp) (r : ALResult), r.status = 0 →
      materialize d (some r) ff =
        .ok (.json 502 (.obj [("error", .str "Request inside browser failed"),
                              ("details", resultToJS (some r))]))) ∧
    (∀ (d : JSVal) (ff : String → Except String FetchResp) (r : ALResult),
      r.status ≠ 0 → r.status ≠ 200 →
      materialize d (some r) ff =
        .ok (.json r.status (.obj [("error", .str "Upstream non-200"),
                                   ("data", (r.bodyJS).getD .undef)]))) ∧
    (∀ (d : JSVal) (ff : String → Except String FetchResp),
      materialize d (some (.ok 403 (.obj [("error", .str "forbidden")]))) ff =
        .ok (.json 403 (.obj [("error", .str "Upstream non-200"),
                              ("data", .obj [("error", .str "forbidden")])]))) := by
  refine ⟨fun d ff => rfl, fun d ff r h => ?_, fun d ff r h0 h200 => ?_, fun d ff => rfl⟩
  · simp [materialize, h]
  · simp [materialize, h0, h200]

/-- Witness for C4: a network-failure result object maps to the 502 with its
details, and an upstream 404 with a string body is relayed as a 404. -/
theorem materialize_upstream_spec_witness :
    materialize .null (some (.netErr "Failed to fetch")) (fun _ => .error "unused") =
      .ok (.json 502 (.obj [("error", .str "Request inside browser failed"),
                            ("details", resultToJS (some (.netErr "Failed to fetch")))])) ∧
    materialize .null (some (.ok 404 (.str "not found"))) (fun _ => .error "unused") =
      .ok (.json 404 (.obj [("error", .str "Upstream non-200"),
                            ("data", .str "not found")])) :=
  ⟨materialize_upstream_spec.2.1 _ _ _ rfl,
   materialize_upstream_spec.2.2.1 _ _ _ (by decide) (by decide)⟩

/-- C10: with a 200 upstream result, POST /autolink takes the
download/streaming branch exactly when the `download` body field is truthy
in the JS sense, not only when it is the boolean `true`: any truthy value —
including the non-empty string "false" — triggers the `findUrl` scan and
streaming path, while every falsy value (absent/undefined, null, false, 0,
the empty string) yields the plain `{ok: true, payload}` JSON response. -/
theorem download_branch_truthy :
    (∀ (d b : JSVal) (ff : String → Except String FetchResp), jsTruthy d = false →
      materialize d (some (.ok 200 b)) ff =
        .ok (.json 200 (.obj [("ok", .bool true), ("payload", b)]))) ∧
    (∀ (d b : JSVal) (ff : String → Except String FetchResp), jsTruthy d = true →
      findUrl b = none →
      materialize d (some (.ok 200 b)) ff =
        .ok (.json 200 (.obj [("message", .str "No direct file URL found"),
                              ("payload", b)]))) ∧
    (∀ (d b : JSVal) (ff : String → Except String FetchResp) (u : FetchResp)
       (fileUrl : String), jsTruthy d = true → findUrl b = some fileUrl →
      ff fileUrl = .ok u → u.ok = true →
      materialize d (some (.ok 200 b)) ff =
        .ok (.stream (u.contentType.getD "application/octet-stream") u.contentDisposition)) ∧
    (jsTruthy (.str "false") = true ∧ jsTruthy .undef = false ∧ jsTruthy .null = false ∧
     jsTruthy (.bool false) = false ∧ jsTruthy (.num 0) = false ∧
     jsTruthy (.str "") = false) := by
  refine ⟨fun d b ff h => ?_, fun d b ff h hf => ?_, fun d b ff u fileUrl h hf hff hok => ?_,
    rfl, rfl, rfl, rfl, rfl, rfl⟩
  · simp [materialize, ALResult.status, ALResult.bodyJS, h]
  · simp [materialize, ALResult.status, ALResult.bodyJS, h, hf]
  · simp [materialize, ALResult.status, ALResult.bodyJS, h, hf, hff, hok]

/-- Witness for C10: `download: "false"` (a truthy string) takes the scan
path — here streaming the found file URL — while `download: false` returns
the plain payload. -/
theorem download_branch_truthy_witness :
    materialize (.str "false")
        (some (.ok 200 (.obj [("link", .str "https://files.example/x.mp4")])))
        (fun _ => .ok ⟨true, 200, some "video/mp4", none⟩) =
      .ok (.stream "video/mp4" none) ∧
    materialize (.bool false)
        (some (.ok 200 (.obj [("link", .str "https://files.example/x.mp4")])))
        (fun _ => .ok ⟨true, 200, some "video/mp4", none⟩) =
      .ok (.json 200 (.obj [("ok", .bool true),
        ("payload", .obj [("link", .str "https://files.example/x.mp4")])])) :=
  ⟨download_branch_truthy.2.2.1 _ _ _ ⟨true, 200, some "video/mp4", none⟩
      "https://files.example/x.mp4" rfl (by simp +decide [findUrl, strStartsWith]) rfl rfl,
   download_branch_truthy.1 _ _ _ rfl⟩

/-- Program counter of one caller of `ensureBrowser` (server.js lines
39-66), with one position per atomic segment between `await` points of the
single-threaded event loop:

* `start` — about to run the synchronous prefix (lines 40-45): return the
  existing handle, enter the wait loop, or set the flag and start a launch;
* `waiting` — suspended in the 200 ms poll loop (line 42);
* `launching` — awaiting `puppeteer.launch` with the flag held (line 47);
* `ret r` — returned the value `r` (the nullable `browser` variable);
* `threw e` — the launch rejected and the exception propagated (line 64). -/
inductive PC where
  | start
  | waiting
  | launching
  | ret (r : Option Nat)
  | threw (e : String)
deriving DecidableEq, Repr

/-- Global state of the session manager: the module-level `browser` and
`browserLaunching` variables (lines 35-36), the per-caller program
counters, and a ghost count of browser processes successfully launched. -/
structure SMState where
  browser : Option Nat
  launching : Bool
  threads : List PC
  launched : Nat
deriving DecidableEq, Repr

/-- Initial state: no browser, flag clear, `n` callers about to run. -/
def initSM (n : Nat) : SMState :=
  ⟨none, false, List.replicate n .start, 0⟩

/-- Interleaving semantics of `ensureBrowser`: each constructor is one
atomic synchronous segment of one caller, with the event loop free to pick
any runnable caller. `launchOk h` models `puppeteer.launch` resolving with
a fresh process handle `h` (assigning `browser`, clearing the flag and
returning on one synchronous segment, lines 47-61); `launchFail` models it
rejecting (clearing the flag and rethrowing, lines 62-65); `waitWake`
models a poller whose loop condition `browserLaunching && !browser` has
become false returning the current `browser` value (lines 42-43). -/
inductive Step : SMState → SMState → Prop where
  | startHave (s : SMState) (i : Nat) (h : Nat)
      (ht : s.threads[i]? = some .start) (hb : s.browser = some h) :
      Step s ⟨s.browser, s.launching, s.threads.set i (.ret (some h)), s.launched⟩
  | startWait (s : SMState) (i : Nat)
      (ht : s.threads[i]? = some .start) (hb : s.browser = none) (hl : s.launching = true) :
      Step s ⟨s.browser, s.launching, s.threads.set i .waiting, s.launched⟩
  | startLaunch (s : SMState) (i : Nat)
      (ht : s.threads[i]? = some .start) (hb : s.browser = none) (hl : s.launching = false) :
      Step s ⟨none, true, s.threads.set i .launching, s.launched⟩
  | launchOk (s : SMState) (i : Nat) (h : Nat)
      (ht : s.threads[i]? = some .launching) :
      Step s ⟨some h, false, s.threads.set i (.ret (some h)), s.launched + 1⟩
  | launchFail (s : SMState) (i : Nat) (e : String)
      (ht : s.threads[i]? = some .launching) :
      Step s ⟨s.browser, false, s.threads.set i (.threw e), s.launched⟩
  | waitWake (s : SMState) (i : Nat)
      (ht : s.threads[i]? = some .waiting)
      (hc : s.launching = false ∨ s.browser ≠ none) :
      Step s ⟨s.browser, s.launching, s.threads.set i (.ret s.browser), s.launched⟩

/-- States reachable from `n` concurrent callers of `ensureBrowser`. -/
inductive Reach (n : Nat) : SMState → Prop where
  | init : Reach n (initSM n)
  | step {s t : SMState} : Reach n s → Step s t → Reach n t

/-- Inductive invariant of the session manager: (1) at most one caller is
in the launch section; (2) a clear flag means no caller is in the launch
section; (3) a caller in the launch section implies no handle exists yet;
(4) every returned handle is the current global handle; (5) at most one
successful launch ever happens; (6) no handle means no successful launch
yet. -/
def SMInv (s : SMState) : Prop :=
  (∀ i j : Nat, s.threads[i]? = some PC.launching → s.threads[j]? = some PC.launching → i = j) ∧
  (s.launching = false → ∀ i : Nat, s.threads[i]? ≠ some PC.launching) ∧
  ((∃ i : Nat, s.threads[i]? = some PC.launching) → s.browser = none) ∧
  (∀ (i h : Nat), s.threads[i]? = some (PC.ret (some h)) → s.browser = some h) ∧
  s.launched ≤ 1 ∧
  (s.browser = none → s.launched = 0)

theorem set_lookup {α : Type} {l : List α} {i j : Nat} {a v : α}
    (h : (l.set i a)[j]? = some v) : (i = j ∧ a = v) ∨ (i ≠ j ∧ l[j]? = some v) := by
  by_cases hij : i = j
  · subst hij
    have hlen : i < l.length := by
      by_contra hn
      have hnone : (l.set i a)[i]? = none :=
        List.getElem?_eq_none (by simpa using Nat.le_of_not_lt hn)
      rw [hnone] at h
      cases h
    rw [List.getElem?_set_self hlen] at h
    exact Or.inl ⟨rfl, Option.some.inj h⟩
  · exact Or.inr ⟨hij, by rwa [List.getElem?_set_ne hij] at h⟩

theorem smInv_init (n : Nat) : SMInv (initSM n) := by
  refine ⟨fun i j hi hj => ?_, fun hl i hi => ?_, fun ⟨i, hi⟩ => ?_,
    fun i h hi => ?_, Nat.zero_le 1, fun _ => rfl⟩ <;>
  · simp only [initSM, List.getElem?_replicate] at hi
    split at hi <;> simp_all

theorem smInv_step {s t : SMState} (hs : SMInv s) (hst : Step s t) : SMInv t := by
  obtain ⟨uniq, flagOff, brNone, retBr, le1, br0⟩ := hs
  cases hst with
  | startHave i h ht hb =>
    refine ⟨fun a b ha hb' => ?_, fun hl a ha => ?_, fun ⟨a, ha⟩ => ?_,
      fun a g ha => ?_, le1, br0⟩
    · rcases set_lookup ha with ⟨rfl, hv⟩ | ⟨_, ha'⟩
      · cases hv
      rcases set_lookup hb' with ⟨rfl, hv⟩ | ⟨_, hb''⟩
      · cases hv
      exact uniq a b ha' hb''
    · rcases set_lookup ha with ⟨rfl, hv⟩ | ⟨_, ha'⟩
      · cases hv
      exact flagOff hl a ha'
    · rcases set_lookup ha with ⟨rfl, hv⟩ | ⟨_, ha'⟩
      · cases hv
      exact brNone ⟨a, ha'⟩
    · rcases set_lookup ha with ⟨rfl, hv⟩ | ⟨_, ha'⟩
      · cases hv; exact hb
      exact retBr a g ha'
  | startWait i ht hb hl =>
    refine ⟨fun a b ha hb' => ?_, fun hl' a ha => ?_, fun ⟨a, ha⟩ => ?_,
      fun a g ha => ?_, le1, br0⟩
    · rcases set_lookup ha with ⟨rfl, hv⟩ | ⟨_, ha'⟩
      · cases hv
      rcases set_lookup hb' with ⟨rfl, hv⟩ | ⟨_, hb''⟩
      · cases hv
      exact uniq a b ha' hb''
    · rcases set_lookup ha with ⟨rfl, hv⟩ | ⟨_, ha'⟩
      · cases hv
      exact flagOff hl' a ha'
    · rcases set_lookup ha with ⟨rfl, hv⟩ | ⟨_, ha'⟩
      · cases hv
      exact brNone ⟨a, ha'⟩
    · rcases set_lookup ha with ⟨rfl, hv⟩ | ⟨_, ha'⟩
      · cases hv
      exact retBr a g ha'
  | startLaunch i ht hb hl =>
    refine ⟨fun a b ha hb' => ?_, fun hl' a ha => ?_, fun _ => rfl,
      fun a g ha => ?_, le1, fun _ => br0 hb⟩
    · rcases set_lookup ha with ⟨rfl, _⟩ | ⟨hne, ha'⟩
      · rcases set_lookup hb' with ⟨rfl, _⟩ | ⟨hne', hb''⟩
        · rfl
        · exact absurd hb'' (flagOff hl b)
      · exact absurd ha' (flagOff hl a)
    · cases hl'
    · rcases set_lookup ha with ⟨rfl, hv⟩ | ⟨_, ha'⟩
      · cases hv
      exact absurd hb (by simp [retBr a g ha'])
  | launchOk i h ht =>
    have hbr : s.browser = none := brNone ⟨i, ht⟩
    refine ⟨fun a b ha hb' => ?_, fun _ a ha => ?_, fun ⟨a, ha⟩ => ?_,
      fun a g ha => ?_, by simp [br0 hbr], fun hh => by cases hh⟩
    · rcases set_lookup ha with ⟨rfl, hv⟩ | ⟨hne, ha'⟩
      · cases hv
      exact absurd (uniq a i ha' ht).symm hne
    · rcases set_lookup ha with ⟨rfl, hv⟩ | ⟨hne, ha'⟩
      · cases hv
      exact absurd (uniq a i ha' ht).symm hne
    · rcases set_lookup ha with ⟨rfl, hv⟩ | ⟨hne, ha'⟩
      · cases hv
      exact absurd (uniq a i ha' ht).symm hne
    · rcases set_lookup ha with ⟨rfl, hv⟩ | ⟨_, ha'⟩
      · cases hv; rfl
      · have := retBr a g ha'
        rw [hbr] at this
        cases this
  | launchFail i e ht =>
    have hbr : s.browser = none := brNone ⟨i, ht⟩
    refine ⟨fun a b ha hb' => ?_, fun _ a ha => ?_, fun _ => hbr,
      fun a g ha => ?_, le1, fun _ => br0 hbr⟩
    · rcases set_lookup ha with ⟨rfl, hv⟩ | ⟨hne, ha'⟩
      · cases hv
      exact absurd (uniq a i ha' ht).symm hne
    · rcases set_lookup ha with ⟨rfl, hv⟩ | ⟨hne, ha'⟩
      · cases hv
      exact absurd (uniq a i ha' ht).symm hne
    · rcases set_lookup ha with ⟨rfl, hv⟩ | ⟨_, ha'⟩
      · cases hv
      exact retBr a g ha'
  | waitWake i ht hc =>
    refine ⟨fun a b ha hb' => ?_, fun hl' a ha => ?_, fun ⟨a, ha⟩ => ?_,
      fun a g ha => ?_, le1, br0⟩
    · rcases set_lookup ha with ⟨rfl, hv⟩ | ⟨_, ha'⟩
      · cases hv
      rcases set_lookup hb' with ⟨rfl, hv⟩ | ⟨_, hb''⟩
      · cases hv
      exact uniq a b ha' hb''
    · rcases set_lookup ha with ⟨rfl, hv⟩ | ⟨_, ha'⟩
      · cases hv
      exact flagOff hl' a ha'
    · rcases set_lookup ha with ⟨rfl, hv⟩ | ⟨_, ha'⟩
      · cases hv
      exact brNone ⟨a, ha'⟩
    · rcases set_lookup ha with ⟨rfl, hv⟩ | ⟨_, ha'⟩
      · exact PC.ret.inj hv
      exact retBr a g ha'

theorem reach_smInv {n : Nat} {s : SMState} (h : Reach n s) : SMInv s := by
  induction h with
  | init => exact smInv_init n
  | step hr hst ih => exact smInv_step ih hst

/-- C1: in every reachable interleaving of concurrent `ensureBrowser`
callers, at most one caller is awaiting `puppeteer.launch` at a time, at
most one browser process is ever launched successfully, any two callers
that returned a handle returned the same handle, and while a handle is
live no caller is in the launch section (no second launch is triggered). -/
theorem ensureBrowser_single_launch {n : Nat} {s : SMState} (hr : Reach n s) :
    (∀ i j : Nat, s.threads[i]? = some PC.launching → s.threads[j]? = some PC.launching →
      i = j) ∧
    s.launched ≤ 1 ∧
    (∀ (h i : Nat), s.browser = some h → s.threads[i]? ≠ some PC.launching) ∧
    (∀ (i j a b : Nat), s.threads[i]? = some (PC.ret (some a)) →
      s.threads[j]? = some (PC.ret (some b)) → a = b) := by
  obtain ⟨uniq, _, brNone, retBr, le1, _⟩ := reach_smInv hr
  refine ⟨uniq, le1, fun h i hb hl => ?_, fun i j a b ha hb => ?_⟩
  · rw [brNone ⟨i, hl⟩] at hb
    cases hb
  · have h1 := retBr i a ha
    have h2 := retBr j b hb
    rw [h1] at h2
    exact Option.some.inj h2

/-- State after one caller of two has entered the launch section. -/
def smA : SMState := ⟨none, true, [PC.launching, PC.start], 0⟩

/-- State after the second caller has entered the poll loop. -/
def smB : SMState := ⟨none, true, [PC.launching, PC.waiting], 0⟩

/-- State after the launch rejected: the launcher threw, the flag is clear,
the waiter still polls. -/
def smC : SMState := ⟨none, false, [PC.threw "boom", PC.waiting], 0⟩

/-- State after the waiter's poll condition turned false: it returned the
current `browser` value, which is `null`. -/
def smD : SMState := ⟨none, false, [PC.threw "boom", PC.ret none], 0⟩

/-- State after both of two callers returned the same launched handle. -/
def smE : SMState := ⟨some 5, false, [PC.ret (some 5), PC.ret (some 5)], 1⟩

/-- Witness for C1 at a concrete reachable state: caller 0 launched handle
5 and caller 1 then picked it up; the invariant conclusions hold there. -/
theorem ensureBrowser_single_launch_witness :
    (∀ i j : Nat, smE.threads[i]? = some PC.launching → smE.threads[j]? = some PC.launching →
      i = j) ∧
    smE.launched ≤ 1 ∧
    (∀ (h i : Nat), smE.browser = some h → smE.threads[i]? ≠ some PC.launching) ∧
    (∀ (i j a b : Nat), smE.threads[i]? = some (PC.ret (some a)) →
      smE.threads[j]? = some (PC.ret (some b)) → a = b) := by
  have st1 : Step (initSM 2) smA := Step.startLaunch (initSM 2) 0 rfl rfl rfl
  have st2 : Step smA ⟨some 5, false, [PC.ret (some 5), PC.start], 1⟩ :=
    Step.launchOk smA 0 5 rfl
  have st3 : Step (⟨some 5, false, [PC.ret (some 5), PC.start], 1⟩ : SMState) smE :=
    Step.startHave ⟨some 5, false, [PC.ret (some 5), PC.start], 1⟩ 1 5 rfl rfl
  exact ensureBrowser_single_launch
    (Reach.step (Reach.step (Reach.step Reach.init st1) st2) st3)

/-- Counterexample to C2: a reachable trace of two callers in which the
launch fails, the launching caller observes the thrown launch error, and
the waiter that was suspended on the in-flight launch returns `null` (the
absent handle) — the launch error is not propagated to the waiter. -/
theorem launch_fail_waiter_gets_null_counterexample :
    Reach 2 smD ∧
    smD.threads[0]? = some (PC.threw "boom") ∧
    smD.threads[1]? = some (PC.ret none) ∧
    (∀ e : String, smD.threads[1]? ≠ some (PC.threw e)) := by
  refine ⟨?_, rfl, rfl, fun e h => by simp [smD] at h⟩
  have st1 : Step (initSM 2) smA := Step.startLaunch (initSM 2) 0 rfl rfl rfl
  have st2 : Step smA smB := Step.startWait smA 1 rfl rfl rfl
  have st3 : Step smB smC := Step.launchFail smB 0 "boom" rfl
  have st4 : Step smC smD := Step.waitWake smC 1 rfl (Or.inl rfl)
  exact Reach.step (Reach.step (Reach.step (Reach.step Reach.init st1) st2) st3) st4

/-- Successor state of a launch failure by caller `i` with error `e`:
`browserLaunching` cleared, the caller rethrowing (lines 62-65). -/
def failSt (s : SMState) (i : Nat) (e : String) : SMState :=
  ⟨s.browser, false, s.threads.set i (.threw e), s.launched⟩

/-- Successor state of waiter `j` leaving the poll loop and returning the
current `browser` value (lines 42-43). -/
def wakeSt (s : SMState) (j : Nat) : SMState :=
  ⟨s.browser, s.launching, s.threads.set j (.ret s.browser), s.launched⟩

/-- Successor state of caller `k` claiming the launch flag and starting a
fresh launch (lines 45-47). -/
def launchSt (s : SMState) (k : Nat) : SMState :=
  ⟨none, true, s.threads.set k .launching, s.launched⟩

/-- C2 amended: when the launch fails, the in-progress flag is cleared and
the launch error propagates to the caller that performed the launch; every
waiter that was suspended on the in-flight launch can then only wake to
return the absent handle (`null`) — not the launch error; and because the
handle remains absent with the flag clear, any subsequent caller retries
the launch from scratch. -/
theorem ensureBrowser_launch_fail_behavior {n : Nat} {s : SMState} (hr : Reach n s)
    (i : Nat) (e : String) (ht : s.threads[i]? = some PC.launching) :
    Step s (failSt s i e) ∧
    (failSt s i e).launching = false ∧
    (failSt s i e).threads[i]? = some (PC.threw e) ∧
    (failSt s i e).browser = none ∧
    (∀ j : Nat, (failSt s i e).threads[j]? = some PC.waiting →
      Step (failSt s i e) (wakeSt (failSt s i e) j) ∧
      (wakeSt (failSt s i e) j).threads[j]? = some (PC.ret none)) ∧
    (∀ k : Nat, (failSt s i e).threads[k]? = some PC.start →
      Step (failSt s i e) (launchSt (failSt s i e) k) ∧
      (launchSt (failSt s i e) k).launching = true ∧
      (launchSt (failSt s i e) k).threads[k]? = some PC.launching) := by
  have hbr : s.browser = none := (reach_smInv hr).2.2.1 ⟨i, ht⟩
  have hlen : i < s.threads.length := (List.getElem?_eq_some.mp ht).1
  refine ⟨Step.launchFail s i e ht, rfl, ?_, hbr, fun j hj => ?_, fun k hk => ?_⟩
  · exact List.getElem?_set_self hlen
  · have hjlen : j < (failSt s i e).threads.length := (List.getElem?_eq_some.mp hj).1
    refine ⟨Step.waitWake (failSt s i e) j hj (Or.inl rfl), ?_⟩
    have : (failSt s i e).browser = none := hbr
    rw [show (wakeSt (failSt s i e) j).threads =
        (failSt s i e).threads.set j (.ret (failSt s i e).browser) from rfl,
      List.getElem?_set_self hjlen, this]
  · have hklen : k < (failSt s i e).threads.length := (List.getElem?_eq_some.mp hk).1
    exact ⟨Step.startLaunch (failSt s i e) k hk hbr rfl, rfl,
      List.getElem?_set_self hklen⟩

/-- Witness for the amended C2 at the concrete reachable state `smA`
(caller 0 launching, caller 1 still at start): the failure step, the
cleared flag, the thrown error at caller 0, the absent handle, and the
retry step for caller 1 are all realised. -/
theorem ensureBrowser_launch_fail_behavior_witness :
    Step smA (failSt smA 0 "boom") ∧
    (failSt smA 0 "boom").launching = false ∧
    (failSt smA 0 "boom").threads[0]? = some (PC.threw "boom") ∧
    (failSt smA 0 "boom").browser = none ∧
    (∀ j : Nat, (failSt smA 0 "boom").threads[j]? = some PC.waiting →
      Step (failSt smA 0 "boom") (wakeSt (failSt smA 0 "boom") j) ∧
      (wakeSt (failSt smA 0 "boom") j).threads[j]? = some (PC.ret none)) ∧
    (∀ k : Nat, (failSt smA 0 "boom").threads[k]? = some PC.start →
      Step (failSt smA 0 "boom") (launchSt (failSt smA 0 "boom") k) ∧
      (launchSt (failSt smA 0 "boom") k).launching = true ∧
      (launchSt (failSt smA 0 "boom") k).threads[k]? = some PC.launching) := by
  have hr : Reach 2 smA :=
    Reach.step Reach.init (Step.startLaunch (initSM 2) 0 rfl rfl rfl)
  exact ensureBrowser_launch_fail_behavior hr 0 "boom" rfl
